import Mathlib

/-!
Shallow embedding of the HEIC-to-JPG converter web service (src/app.py).

The Flask application keeps an in-memory dictionary `conversion_sessions`
mapping generated session ids to session records, plus files it writes into
an upload folder.  The routes `upload_file`, `convert_file`, `download_file`,
`get_status` and `clear_session` are modelled as pure functions over an
explicit server state.  External effects (the PIL image decoder, the
pillow_heif decoder in its two modes, the `sips` shell-out, the encoders,
`secure_filename`, `uuid4` and the clock) are passed in as an environment /
explicit parameters, so every route is a total computable function.
-/

/-- A JSON value, as produced by Flask's `jsonify` for the bodies this app
builds (strings, numbers, booleans and null). -/
inductive JVal where
  | s (v : String)
  | n (v : Nat)
  | b (v : Bool)
  | null
deriving DecidableEq

/-- An HTTP response consisting of a status code and a JSON object body
(ordered list of key/value fields, as `jsonify` receives them). -/
structure Response where
  code : Nat
  body : List (String × JVal)
deriving DecidableEq

/-- Generic lookup in an association list, mirroring Python `dict` key
lookup (`k in d` / `d[k]`). -/
def lookupA {α : Type} : List (String × α) → String → Option α
  | [], _ => none
  | (k, v) :: rest, key => if k = key then some v else lookupA rest key

/-- Python `d[k] = v`: insert or overwrite the binding for `k`. -/
def insertA {α : Type} (m : List (String × α)) (k : String) (v : α) :
    List (String × α) :=
  (k, v) :: m.filter (fun p => p.1 != k)

/-- Python `del d[k]`: remove the binding for `k`. -/
def eraseA {α : Type} (m : List (String × α)) (k : String) :
    List (String × α) :=
  m.filter (fun p => p.1 != k)

/-- Boolean test that `pat` is a prefix of `l` (character lists). -/
def startsWithL : List Char → List Char → Bool
  | [], _ => true
  | _ :: _, [] => false
  | a :: as, b :: bs => a == b && startsWithL as bs

/-- Python `s.lower()` for the ASCII filenames this app handles. -/
def pyLower (s : String) : String := ⟨s.data.map Char.toLower⟩

/-- Python `s.endswith(suffix)`: `suffix` read backwards is a prefix of `s`
read backwards. -/
def pyEndsWith (s suffix : String) : Bool :=
  startsWithL suffix.data.reverse s.data.reverse

/-- Index of the last occurrence of a dot in a character list
(Python `s.rfind('.')` restricted to what `os.path.splitext` needs). -/
def lastDotIdx : List Char → Option Nat
  | [] => none
  | c :: cs =>
    match lastDotIdx cs with
    | some i => some (i + 1)
    | none => if c = '.' then some 0 else none

/-- `os.path.splitext(s)[0]` for a bare filename: drop the extension after
the last dot, unless every character before that dot is itself a dot. -/
def splitextBase (s : String) : String :=
  match lastDotIdx s.data with
  | none => s
  | some i =>
    if (s.data.take i).any (fun c => c != '.') then ⟨s.data.take i⟩ else s

/-- An in-memory PIL image: its colour `mode` string and an abstract pixel
payload. -/
structure Img where
  mode : String
  pixels : Nat
deriving DecidableEq

/-- One session record of the `conversion_sessions` dictionary.  Keys that a
record may lack in Python (`converted_data`, `output_format`, `error`) are
`Option` fields. -/
structure SessionRec where
  file_path : String
  original_filename : String
  status : String
  progress : Nat
  created_at : Nat
  converted_data : Option (List Nat)
  output_format : Option String
  error : Option String
deriving DecidableEq

/-- The whole mutable state of the service: the session dictionary plus the
set of files present on disk (paths). -/
structure ServerState where
  conversion_sessions : List (String × SessionRec)
  files : List String
deriving DecidableEq

/-- The external world the conversion route calls into: the two image
libraries, the `sips` shell-out, mode conversion, EXIF stripping and the
three encoders.  A decoder returns `Except` (exception or image); the
`sips` field bundles running the subprocess and reopening its output. -/
structure Env where
  imageOpen : String → Except String Img
  readHeif : String → Except String Img
  readHeifAlt : String → Except String Img
  sipsRun : String → Except String Img
  convertRGB : Img → Img
  newWithoutExif : Img → Img
  saveJpeg : Img → Nat → List Nat
  savePng : Img → List Nat
  saveWebp : Img → Nat → List Nat

/-- The four decode methods of the fallback chain, in the roles they play in
`convert_file`. -/
inductive Method where
  | imageOpen
  | readHeif
  | readHeifAlt
  | sips
deriving DecidableEq

/-- The result of invoking one decode method on a path. -/
def methodResult (env : Env) (p : String) : Method → Except String Img
  | .imageOpen => env.imageOpen p
  | .readHeif => env.readHeif p
  | .readHeifAlt => env.readHeifAlt p
  | .sips => env.sipsRun p

/-- The fixed order in which `convert_file` tries the decoders:
`Image.open`, then `pillow_heif.read_heif`, then `read_heif` with
`bgr_mode=False`, then the `sips` shell-out. -/
def fallbackOrder : List Method :=
  [.imageOpen, .readHeif, .readHeifAlt, .sips]

/-- The nested try/except decode cascade of `convert_file` (src/app.py lines
106-169), instrumented with the list of methods actually attempted, in
order.  When every method fails the original `Image.open` exception is
re-raised. -/
def decodeChainTrace (env : Env) (p : String) :
    Except String Img × List Method :=
  match env.imageOpen p with
  | .ok img => (.ok img, [.imageOpen])
  | .error openError =>
    match env.readHeif p with
    | .ok img => (.ok img, [.imageOpen, .readHeif])
    | .error _ =>
      match env.readHeifAlt p with
      | .ok img => (.ok img, [.imageOpen, .readHeif, .readHeifAlt])
      | .error _ =>
        match env.sipsRun p with
        | .ok img => (.ok img, fallbackOrder)
        | .error _ => (.error openError, fallbackOrder)

/-- The decode cascade itself: its result, forgetting the trace. -/
def decodeChain (env : Env) (p : String) : Except String Img :=
  (decodeChainTrace env p).1

/-- Mode normalisation of `convert_file` (src/app.py lines 174-185):
convert to RGB when the mode is neither RGB nor L. -/
def normalizeMode (env : Env) (img : Img) : Img :=
  if img.mode ≠ "RGB" ∧ img.mode ≠ "L" then
    if img.mode ∈ ["RGBA", "LA", "P", "CMYK", "YCbCr", "LAB", "HSV", "I", "F"]
    then env.convertRGB img
    else if img.mode = "L" then img
    else env.convertRGB img
  else img

/-- Saving an image in the requested output format (src/app.py lines
190-198): JPEG at quality 90, PNG, WebP at quality 90, anything else JPEG at
quality 90. -/
def saveByFormat (env : Env) (img : Img) (fmt : String) : List Nat :=
  if fmt = "jpeg" then env.saveJpeg img 90
  else if fmt = "png" then env.savePng img
  else if fmt = "webp" then env.saveWebp img 90
  else env.saveJpeg img 90

/-- The bytes `convert_file` finally stores for a decoded image: the image
is mode-normalised, encoded, and re-encoded from an EXIF-free copy when
`strip_exif` is set. -/
def convertedBytes (env : Env) (img : Img) (fmt : String) (strip : Bool) :
    List Nat :=
  let nimg := normalizeMode env img
  let buf := saveByFormat env nimg fmt
  if strip then saveByFormat env (env.newWithoutExif nimg) fmt else buf

/-- A 400 response with a JSON error body, `jsonify({'error': msg}), 400`. -/
def err400 (msg : String) : Response :=
  ⟨400, [("error", JVal.s msg)]⟩

/-- `MAX_CONTENT_LENGTH`: 16MB. -/
def MAX_CONTENT_LENGTH : Nat := 16 * 1024 * 1024

/-- `UPLOAD_FOLDER`. -/
def UPLOAD_FOLDER : String := "uploads"

/-- The uploaded file of a multipart request: its client-supplied filename
and its `content_length` attribute (0 models Python falsy/absent). -/
structure UploadedFile where
  filename : String
  content_length : Nat
deriving DecidableEq

/-- An upload request: `none` models `'file' not in request.files`. -/
structure UploadReq where
  file : Option UploadedFile
deriving DecidableEq

/-- The `/upload` route (src/app.py lines 44-82).  `sanitize` stands for
`werkzeug.utils.secure_filename`, `sid` for the fresh `uuid.uuid4()` string
and `now` for `datetime.now()`. -/
def upload_file (sanitize : String → String) (sid : String) (now : Nat)
    (st : ServerState) (req : UploadReq) : ServerState × Response :=
  match req.file with
  | none => (st, err400 "No file provided")
  | some f =>
    if f.filename = "" then (st, err400 "No file selected")
    else if ¬ (pyEndsWith (pyLower f.filename) ".heic"
        || pyEndsWith (pyLower f.filename) ".heif") then
      (st, err400 "Invalid file type. Only HEIC/HEIF files are supported.")
    else if f.content_length ≠ 0 ∧ f.content_length > MAX_CONTENT_LENGTH then
      (st, err400 "File too large. Maximum size is 16MB.")
    else
      let filename := sanitize f.filename
      let file_path := UPLOAD_FOLDER ++ "/" ++ sid ++ "_" ++ filename
      let recd : SessionRec :=
        { file_path := file_path
          original_filename := filename
          status := "pending"
          progress := 0
          created_at := now
          converted_data := none
          output_format := none
          error := none }
      ({ conversion_sessions := insertA st.conversion_sessions sid recd
         files := file_path :: st.files },
       ⟨200, [("session_id", .s sid), ("filename", .s filename),
              ("status", .s "pending")]⟩)

/-- The parsed JSON body of a `/convert` request.  `quality` is a field a
client may send; the handler never reads it. -/
structure ConvertReq where
  session_id : Option String
  strip_exif : Bool
  output_format : Option String
  quality : Option Nat
deriving DecidableEq

/-- The `/convert` route (src/app.py lines 84-242). -/
def convert_file (env : Env) (st : ServerState) (req : ConvertReq) :
    ServerState × Response :=
  let output_format := req.output_format.getD "jpeg"
  match req.session_id with
  | none => (st, err400 "Invalid session ID")
  | some sid =>
    match lookupA st.conversion_sessions sid with
    | none => (st, err400 "Invalid session ID")
    | some sd =>
      let sd1 := { sd with status := "converting", progress := 10 }
      match decodeChain env sd1.file_path with
      | .error e =>
        let sd2 := { sd1 with status := "error", error := some e }
        ({ st with conversion_sessions := insertA st.conversion_sessions sid sd2 },
         ⟨500, [("error", .s e)]⟩)
      | .ok img =>
        let buf := convertedBytes env img output_format req.strip_exif
        let sd2 := { sd1 with
          converted_data := some buf
          output_format := some output_format
          status := "completed"
          progress := 100 }
        ({ st with conversion_sessions := insertA st.conversion_sessions sid sd2 },
         ⟨200, [("status", .s "completed"), ("progress", .n 100),
                ("output_format", .s output_format)]⟩)

/-- The result of the `/download` route: either a JSON response or a file
attachment (bytes, download name, mimetype). -/
inductive DlResult where
  | jsonR (r : Response)
  | fileR (bytes : List Nat) (downloadName : String) (mimetype : String)
deriving DecidableEq

/-- The `/download/<session_id>` route (src/app.py lines 244-270). -/
def download_file (st : ServerState) (sid : String) : DlResult :=
  match lookupA st.conversion_sessions sid with
  | none => .jsonR (err400 "Invalid session ID")
  | some sd =>
    if sd.status ≠ "completed" then
      .jsonR (err400 "File not ready for download")
    else
      let base_name := splitextBase sd.original_filename
      let fmt := sd.output_format.getD ""
      let extension := if fmt = "jpeg" then "jpg" else fmt
      .fileR (sd.converted_data.getD []) (base_name ++ "." ++ extension)
        ("image/" ++ fmt)

/-- JSON rendering of an optional string (`None` becomes `null`). -/
def jOptS : Option String → JVal
  | none => .null
  | some v => .s v

/-- The `/status/<session_id>` route (src/app.py lines 272-283). -/
def get_status (st : ServerState) (sid : String) : Response :=
  match lookupA st.conversion_sessions sid with
  | none => err400 "Invalid session ID"
  | some sd =>
    ⟨200, [("status", .s sd.status), ("progress", .n sd.progress),
           ("error", jOptS sd.error), ("output_format", jOptS sd.output_format)]⟩

/-- The `/clear/<session_id>` route (src/app.py lines 285-297): when the
session exists its file is removed from disk (failures ignored) and its
record deleted; the route always answers `{'success': true}`. -/
def clear_session (st : ServerState) (sid : String) : ServerState × Response :=
  match lookupA st.conversion_sessions sid with
  | none => (st, ⟨200, [("success", .b true)]⟩)
  | some sd =>
    ({ conversion_sessions := eraseA st.conversion_sessions sid
       files := st.files.filter (fun p => p != sd.file_path) },
     ⟨200, [("success", .b true)]⟩)

/-! Concrete fixtures used to instantiate the theorems below. -/

/-- A concrete RGB image. -/
def imgRGB : Img := ⟨"RGB", 7⟩

/-- An environment whose primary decoder succeeds and whose encoders are
injective tagged encodings. -/
def envOk : Env :=
  { imageOpen := fun _ => .ok imgRGB
    readHeif := fun _ => .error "heif failed"
    readHeifAlt := fun _ => .error "heif alt failed"
    sipsRun := fun _ => .error "sips failed"
    convertRGB := fun i => { i with mode := "RGB" }
    newWithoutExif := fun i => i
    saveJpeg := fun i q => [1, q, i.pixels]
    savePng := fun i => [2, i.pixels]
    saveWebp := fun i q => [3, q, i.pixels] }

/-- An environment in which every decode method fails. -/
def envFail : Env := { envOk with imageOpen := fun _ => .error "cannot open" }

/-- A pending session record as `/upload` creates it. -/
def sdPending : SessionRec :=
  ⟨"uploads/s1_a.heic", "a.heic", "pending", 0, 0, none, none, none⟩

/-- A server state holding exactly the session `s1`. -/
def stOne : ServerState := ⟨[("s1", sdPending)], ["uploads/s1_a.heic"]⟩

/-- A convert request addressed to session `s1`. -/
def reqConv : ConvertReq := ⟨some "s1", false, none, none⟩

/-! Helper lemmas about the association-list dictionary operations. -/

theorem lookupA_filter_ne {α : Type} (m : List (String × α)) (k k' : String)
    (h : k' ≠ k) :
    lookupA (m.filter (fun p => p.1 != k)) k' = lookupA m k' := by
  induction m with
  | nil => rfl
  | cons hd tl ih =>
    by_cases hk : hd.1 = k
    · simp [List.filter_cons, hk, lookupA, Ne.symm h, ih]
    · by_cases hk' : hd.1 = k'
      · simp [List.filter_cons, hk, lookupA, hk', h]
      · simp [List.filter_cons, hk, lookupA, hk', ih]

theorem lookupA_insertA_self {α : Type} (m : List (String × α)) (k : String)
    (v : α) : lookupA (insertA m k v) k = some v := by
  simp [insertA, lookupA]

theorem lookupA_insertA_ne {α : Type} (m : List (String × α)) (k k' : String)
    (v : α) (h : k' ≠ k) :
    lookupA (insertA m k v) k' = lookupA m k' := by
  simp only [insertA, lookupA]
  rw [if_neg (fun he => h he.symm)]
  exact lookupA_filter_ne m k k' h

theorem lookupA_eraseA_self {α : Type} (m : List (String × α)) (k : String) :
    lookupA (eraseA m k) k = none := by
  induction m with
  | nil => rfl
  | cons hd tl ih =>
    by_cases hk : hd.1 = k
    · simpa [eraseA, List.filter_cons, hk] using ih
    · simpa [eraseA, List.filter_cons, hk, lookupA] using ih

theorem lookupA_eraseA_ne {α : Type} (m : List (String × α)) (k k' : String)
    (h : k' ≠ k) : lookupA (eraseA m k) k' = lookupA m k' :=
  lookupA_filter_ne m k k' h

/-- C5: for every convert request whose session_id is not a key of the
session map, `convert_file` returns HTTP 400 with a JSON error and leaves
the session map (indeed the whole state) unchanged. -/
theorem C5_convert_unknown_session (env : Env) (st : ServerState)
    (req : ConvertReq)
    (h : ∀ sid, req.session_id = some sid →
      lookupA st.conversion_sessions sid = none) :
    (convert_file env st req).1 = st
    ∧ (convert_file env st req).2 = err400 "Invalid session ID" := by
  cases hq : req.session_id with
  | none => simp [convert_file, hq]
  | some sid => simp [convert_file, hq, h sid hq]

/-- C5 witness: a concrete convert request against an empty session map. -/
theorem C5_convert_unknown_session_witness :
    (∀ sid, reqConv.session_id = some sid →
      lookupA (ServerState.mk [] []).conversion_sessions sid = none)
    ∧ (convert_file envOk ⟨[], []⟩ reqConv).1 = (⟨[], []⟩ : ServerState)
    ∧ (convert_file envOk ⟨[], []⟩ reqConv).2 = err400 "Invalid session ID" :=
  ⟨fun sid h => by cases h; rfl,
   C5_convert_unknown_session envOk ⟨[], []⟩ reqConv
     (fun sid h => by cases h; rfl)⟩

/-- C6: a download request whose session is unknown, or whose session is not
in status completed, gets a JSON 400 error and no file. -/
theorem C6_download_not_ready (st : ServerState) (sid : String)
    (h : lookupA st.conversion_sessions sid = none
      ∨ ∃ sd, lookupA st.conversion_sessions sid = some sd
          ∧ sd.status ≠ "completed") :
    ∃ msg, download_file st sid = .jsonR (err400 msg) := by
  rcases h with hnone | ⟨sd, hsd, hst⟩
  · exact ⟨"Invalid session ID", by simp [download_file, hnone]⟩
  · exact ⟨"File not ready for download", by simp [download_file, hsd, hst]⟩

/-- C6 witness: downloading session s1 while it is still pending. -/
theorem C6_download_not_ready_witness :
    (lookupA stOne.conversion_sessions "s1" = some sdPending
      ∧ sdPending.status ≠ "completed")
    ∧ ∃ msg, download_file stOne "s1" = .jsonR (err400 msg) :=
  ⟨⟨rfl, by decide⟩,
   C6_download_not_ready stOne "s1" (Or.inr ⟨sdPending, rfl, by decide⟩)⟩

/-- C9: the quality field of a convert request never influences the result:
two requests identical up to quality produce the same state and response,
and the JPEG/WebP encoders are always invoked with quality 90. -/
theorem C9_quality_never_influences (env : Env) (st : ServerState)
    (req : ConvertReq) (q1 q2 : Option Nat) :
    convert_file env st { req with quality := q1 }
      = convert_file env st { req with quality := q2 }
    ∧ (∀ img, saveByFormat env img "jpeg" = env.saveJpeg img 90)
    ∧ (∀ img, saveByFormat env img "webp" = env.saveWebp img 90) := by
  refine ⟨rfl, fun img => by simp [saveByFormat], fun img => by simp [saveByFormat]⟩

/-- C10: clear always answers success (even for unknown or already-cleared
sessions) and clearing twice leaves the very state one clear produces. -/
theorem C10_clear_idempotent_total (st : ServerState) (sid : String) :
    (clear_session st sid).2 = ⟨200, [("success", .b true)]⟩
    ∧ clear_session (clear_session st sid).1 sid = clear_session st sid := by
  cases hq : lookupA st.conversion_sessions sid with
  | none => exact ⟨by simp [clear_session, hq], by simp [clear_session, hq]⟩
  | some sd =>
    refine ⟨by simp [clear_session, hq], ?_⟩
    simp [clear_session, hq, lookupA_eraseA_self]

/-- C3: an upload whose filename fails the HEIC/HEIF extension check, and an
upload whose declared size exceeds the 16MB limit, get HTTP 400 with a JSON
error and create no session record (the state is unchanged). -/
theorem C3_upload_rejects_invalid (san : String → String) (sid : String)
    (now : Nat) (st : ServerState) (req : UploadReq) (f : UploadedFile)
    (hf : req.file = some f)
    (hbad : (pyEndsWith (pyLower f.filename) ".heic" = false
        ∧ pyEndsWith (pyLower f.filename) ".heif" = false)
      ∨ MAX_CONTENT_LENGTH < f.content_length) :
    (upload_file san sid now st req).1 = st
    ∧ (upload_file san sid now st req).2.code = 400
    ∧ (lookupA (upload_file san sid now st req).2.body "error").isSome := by
  rcases hbad with ⟨h1, h2⟩ | hsize
  · by_cases hemp : f.filename = ""
    · simp [upload_file, hf, hemp, err400, lookupA]
    · simp [upload_file, hf, hemp, h1, h2, err400, lookupA]
  · by_cases hemp : f.filename = ""
    · simp [upload_file, hf, hemp, err400, lookupA]
    · by_cases hext : (pyEndsWith (pyLower f.filename) ".heic"
          || pyEndsWith (pyLower f.filename) ".heif") = true
      · have hnz : f.content_length ≠ 0 := by
          intro h0
          rw [h0] at hsize
          simp [MAX_CONTENT_LENGTH] at hsize
        simp [upload_file, hf, hemp, hext, hnz, hsize, err400, lookupA]
      · simp [upload_file, hf, hemp, hext, err400, lookupA]

/-- C3 witness: a txt upload and an oversize heic upload are both rejected
with 400 and no state change. -/
theorem C3_upload_rejects_invalid_witness :
    (pyEndsWith (pyLower "photo.txt") ".heic" = false
      ∧ pyEndsWith (pyLower "photo.txt") ".heif" = false)
    ∧ ((upload_file id "s9" 0 stOne ⟨some ⟨"photo.txt", 55⟩⟩).1 = stOne
      ∧ (upload_file id "s9" 0 stOne ⟨some ⟨"photo.txt", 55⟩⟩).2.code = 400
      ∧ (lookupA (upload_file id "s9" 0 stOne
            ⟨some ⟨"photo.txt", 55⟩⟩).2.body "error").isSome) :=
  ⟨by decide,
   C3_upload_rejects_invalid id "s9" 0 stOne ⟨some ⟨"photo.txt", 55⟩⟩
     ⟨"photo.txt", 55⟩ rfl (Or.inl (by decide))⟩

/-- C1: a convert request on a known session whose file decodes successfully
stores the converted bytes and the output format in the session record, sets
status completed and progress 100, and answers 200 with status completed. -/
theorem C1_convert_success (env : Env) (st : ServerState) (req : ConvertReq)
    (sid : String) (sd : SessionRec) (img : Img)
    (hsid : req.session_id = some sid)
    (hlk : lookupA st.conversion_sessions sid = some sd)
    (hdec : decodeChain env sd.file_path = .ok img) :
    (∃ sd', lookupA (convert_file env st req).1.conversion_sessions sid = some sd'
      ∧ sd'.converted_data
          = some (convertedBytes env img (req.output_format.getD "jpeg") req.strip_exif)
      ∧ sd'.output_format = some (req.output_format.getD "jpeg")
      ∧ sd'.status = "completed"
      ∧ sd'.progress = 100)
    ∧ (convert_file env st req).2.code = 200
    ∧ lookupA (convert_file env st req).2.body "status" = some (.s "completed") := by
  refine ⟨⟨{ sd with
      status := "completed", progress := 100,
      converted_data :=
        some (convertedBytes env img (req.output_format.getD "jpeg") req.strip_exif),
      output_format := some (req.output_format.getD "jpeg") }, ?_, rfl, rfl, rfl, rfl⟩,
    ?_, ?_⟩
  all_goals simp [convert_file, hsid, hlk, hdec, lookupA_insertA_self, lookupA]

/-- C1 witness: converting session s1 in an environment whose primary
decoder succeeds. -/
theorem C1_convert_success_witness :
    (reqConv.session_id = some "s1"
      ∧ lookupA stOne.conversion_sessions "s1" = some sdPending
      ∧ decodeChain envOk sdPending.file_path = .ok imgRGB)
    ∧ ((∃ sd', lookupA (convert_file envOk stOne reqConv).1.conversion_sessions "s1"
          = some sd'
        ∧ sd'.converted_data
            = some (convertedBytes envOk imgRGB
                (reqConv.output_format.getD "jpeg") reqConv.strip_exif)
        ∧ sd'.output_format = some (reqConv.output_format.getD "jpeg")
        ∧ sd'.status = "completed"
        ∧ sd'.progress = 100)
      ∧ (convert_file envOk stOne reqConv).2.code = 200
      ∧ lookupA (convert_file envOk stOne reqConv).2.body "status"
          = some (.s "completed")) :=
  ⟨⟨rfl, rfl, rfl⟩,
   C1_convert_success envOk stOne reqConv "s1" sdPending imgRGB rfl rfl rfl⟩

/-- C7: a valid upload (file present, HEIC/HEIF extension, within the size
limit) under a fresh session id answers 200 with that session id and the
sanitized filename, and inserts a new pending record under the id. -/
theorem C7_upload_valid (san : String → String) (sid : String) (now : Nat)
    (st : ServerState) (req : UploadReq) (f : UploadedFile)
    (hf : req.file = some f)
    (hext : (pyEndsWith (pyLower f.filename) ".heic"
        || pyEndsWith (pyLower f.filename) ".heif") = true)
    (hsize : f.content_length ≤ MAX_CONTENT_LENGTH)
    (hfresh : lookupA st.conversion_sessions sid = none) :
    (upload_file san sid now st req).2.code = 200
    ∧ lookupA (upload_file san sid now st req).2.body "session_id"
        = some (.s sid)
    ∧ lookupA (upload_file san sid now st req).2.body "filename"
        = some (.s (san f.filename))
    ∧ ∃ recd, lookupA (upload_file san sid now st req).1.conversion_sessions sid
          = some recd
        ∧ recd.status = "pending"
        ∧ recd.original_filename = san f.filename
        ∧ recd.progress = 0 := by
  by_cases hemp : f.filename = ""
  · rw [hemp] at hext
    exact absurd hext (by decide)
  · have hsz : ¬ (f.content_length ≠ 0
        ∧ f.content_length > MAX_CONTENT_LENGTH) :=
      fun hc => absurd hc.2 (not_lt.mpr hsize)
    refine ⟨?_, ?_, ?_,
      ⟨⟨UPLOAD_FOLDER ++ "/" ++ sid ++ "_" ++ san f.filename, san f.filename,
        "pending", 0, now, none, none, none⟩, ?_, rfl, rfl, rfl⟩⟩
    all_goals
      simp [upload_file, hf, hemp, hext, hsz, lookupA, lookupA_insertA_self]

/-- C7 witness: a fresh valid upload of `a.heic`. -/
theorem C7_upload_valid_witness :
    ((UploadReq.mk (some ⟨"a.heic", 55⟩)).file = some ⟨"a.heic", 55⟩
      ∧ (pyEndsWith (pyLower (UploadedFile.mk "a.heic" 55).filename) ".heic"
          || pyEndsWith (pyLower (UploadedFile.mk "a.heic" 55).filename) ".heif")
          = true
      ∧ (UploadedFile.mk "a.heic" 55).content_length ≤ MAX_CONTENT_LENGTH
      ∧ lookupA (ServerState.mk [] []).conversion_sessions "s1" = none)
    ∧ ((upload_file id "s1" 0 ⟨[], []⟩ ⟨some ⟨"a.heic", 55⟩⟩).2.code = 200
      ∧ lookupA (upload_file id "s1" 0 ⟨[], []⟩
            ⟨some ⟨"a.heic", 55⟩⟩).2.body "session_id" = some (.s "s1")
      ∧ lookupA (upload_file id "s1" 0 ⟨[], []⟩
            ⟨some ⟨"a.heic", 55⟩⟩).2.body "filename"
          = some (.s (id "a.heic"))
      ∧ ∃ recd, lookupA (upload_file id "s1" 0 ⟨[], []⟩
            ⟨some ⟨"a.heic", 55⟩⟩).1.conversion_sessions "s1" = some recd
          ∧ recd.status = "pending"
          ∧ recd.original_filename = id "a.heic"
          ∧ recd.progress = 0) :=
  ⟨⟨rfl, by decide, by decide, rfl⟩,
   C7_upload_valid id "s1" 0 ⟨[], []⟩ ⟨some ⟨"a.heic", 55⟩⟩ ⟨"a.heic", 55⟩
     rfl (by decide) (by decide) rfl⟩

/-- C8: clearing an existing session deletes its file, removes its record
(so status, convert and download on it then answer 400), and leaves every
other session's record unchanged. -/
theorem C8_clear_removes_session (env : Env) (st : ServerState) (sid : String)
    (sd : SessionRec) (hlk : lookupA st.conversion_sessions sid = some sd) :
    sd.file_path ∉ (clear_session st sid).1.files
    ∧ lookupA (clear_session st sid).1.conversion_sessions sid = none
    ∧ get_status (clear_session st sid).1 sid = err400 "Invalid session ID"
    ∧ (∀ req : ConvertReq, req.session_id = some sid →
        convert_file env (clear_session st sid).1 req
          = ((clear_session st sid).1, err400 "Invalid session ID"))
    ∧ download_file (clear_session st sid).1 sid
        = .jsonR (err400 "Invalid session ID")
    ∧ ∀ other, other ≠ sid →
        lookupA (clear_session st sid).1.conversion_sessions other
          = lookupA st.conversion_sessions other := by
  have hstate : (clear_session st sid).1
      = ⟨eraseA st.conversion_sessions sid,
         st.files.filter (fun p => p != sd.file_path)⟩ := by
    simp [clear_session, hlk]
  rw [hstate]
  have herase : lookupA (eraseA st.conversion_sessions sid) sid = none :=
    lookupA_eraseA_self _ _
  refine ⟨?_, herase, ?_, ?_, ?_, ?_⟩
  · simp [List.mem_filter]
  · simp [get_status, herase]
  · intro req hr
    simp [convert_file, hr, herase]
  · simp [download_file, herase]
  · intro other hother
    exact lookupA_eraseA_ne _ _ _ hother

/-- C8 witness: clearing session s1 of the one-session state. -/
theorem C8_clear_removes_session_witness :
    lookupA stOne.conversion_sessions "s1" = some sdPending
    ∧ (sdPending.file_path ∉ (clear_session stOne "s1").1.files
      ∧ lookupA (clear_session stOne "s1").1.conversion_sessions "s1" = none
      ∧ get_status (clear_session stOne "s1").1 "s1"
          = err400 "Invalid session ID"
      ∧ (∀ req : ConvertReq, req.session_id = some "s1" →
          convert_file envOk (clear_session stOne "s1").1 req
            = ((clear_session stOne "s1").1, err400 "Invalid session ID"))
      ∧ download_file (clear_session stOne "s1").1 "s1"
          = .jsonR (err400 "Invalid session ID")
      ∧ ∀ other, other ≠ "s1" →
          lookupA (clear_session stOne "s1").1.conversion_sessions other
            = lookupA stOne.conversion_sessions other) :=
  ⟨rfl, C8_clear_removes_session envOk stOne "s1" sdPending rfl⟩

/-- C2: the decode fallback chain tries the methods in the fixed order
(`Image.open`, `read_heif`, `read_heif` in its alternative mode, `sips`);
every method tried before the last one failed, a successful chain ends at
its first success, and the convert route answers with a JSON error body and
an HTTP error status exactly when all four methods fail. -/
theorem C2_fallback_chain (env : Env) (st : ServerState) (req : ConvertReq)
    (sid : String) (sd : SessionRec)
    (hsid : req.session_id = some sid)
    (hlk : lookupA st.conversion_sessions sid = some sd) :
    (decodeChainTrace env sd.file_path).2 <+: fallbackOrder
    ∧ (∀ m ∈ (decodeChainTrace env sd.file_path).2.dropLast,
        ∃ e, methodResult env sd.file_path m = .error e)
    ∧ (∀ img, (decodeChainTrace env sd.file_path).1 = .ok img →
        ∃ m, (decodeChainTrace env sd.file_path).2.getLast? = some m
          ∧ methodResult env sd.file_path m = .ok img)
    ∧ ((400 ≤ (convert_file env st req).2.code
        ∧ (lookupA (convert_file env st req).2.body "error").isSome) ↔
        ∀ m ∈ fallbackOrder, ∃ e, methodResult env sd.file_path m = .error e) := by
  rcases h1 : env.imageOpen sd.file_path with e1 | i1
  case ok =>
    have htr : decodeChainTrace env sd.file_path = (.ok i1, [.imageOpen]) := by
      simp [decodeChainTrace, h1]
    refine ⟨?_, ?_, ?_, ?_⟩
    · simp only [htr]
      decide
    · intro m hm
      simp [htr] at hm
    · intro img hok
      simp [htr] at hok
      subst hok
      exact ⟨Method.imageOpen, by simp [htr], by simp [methodResult, h1]⟩
    · constructor
      · intro hc
        exfalso
        simp [convert_file, hsid, hlk, decodeChain, htr, lookupA] at hc
      · intro hall
        rcases hall Method.imageOpen (by simp [fallbackOrder]) with ⟨e, he⟩
        simp [methodResult, h1] at he
  case error =>
    rcases h2 : env.readHeif sd.file_path with e2 | i2
    case ok =>
      have htr : decodeChainTrace env sd.file_path
          = (.ok i2, [.imageOpen, .readHeif]) := by
        simp [decodeChainTrace, h1, h2]
      refine ⟨?_, ?_, ?_, ?_⟩
      · simp only [htr]
        decide
      · intro m hm
        simp [htr] at hm
        subst hm
        exact ⟨e1, by simp [methodResult, h1]⟩
      · intro img hok
        simp [htr] at hok
        subst hok
        exact ⟨Method.readHeif, by simp [htr], by simp [methodResult, h2]⟩
      · constructor
        · intro hc
          exfalso
          simp [convert_file, hsid, hlk, decodeChain, htr, lookupA] at hc
        · intro hall
          rcases hall Method.readHeif (by simp [fallbackOrder]) with ⟨e, he⟩
          simp [methodResult, h2] at he
    case error =>
      rcases h3 : env.readHeifAlt sd.file_path with e3 | i3
      case ok =>
        have htr : decodeChainTrace env sd.file_path
            = (.ok i3, [.imageOpen, .readHeif, .readHeifAlt]) := by
          simp [decodeChainTrace, h1, h2, h3]
        refine ⟨?_, ?_, ?_, ?_⟩
        · simp only [htr]
          decide
        · intro m hm
          simp [htr] at hm
          rcases hm with rfl | rfl
          · exact ⟨e1, by simp [methodResult, h1]⟩
          · exact ⟨e2, by simp [methodResult, h2]⟩
        · intro img hok
          simp [htr] at hok
          subst hok
          exact ⟨Method.readHeifAlt, by simp [htr], by simp [methodResult, h3]⟩
        · constructor
          · intro hc
            exfalso
            simp [convert_file, hsid, hlk, decodeChain, htr, lookupA] at hc
          · intro hall
            rcases hall Method.readHeifAlt (by simp [fallbackOrder]) with ⟨e, he⟩
            simp [methodResult, h3] at he
      case error =>
        rcases h4 : env.sipsRun sd.file_path with e4 | i4
        case ok =>
          have htr : decodeChainTrace env sd.file_path
              = (.ok i4, fallbackOrder) := by
            simp [decodeChainTrace, h1, h2, h3, h4]
          refine ⟨?_, ?_, ?_, ?_⟩
          · simp only [htr]
            exact List.prefix_rfl
          · intro m hm
            simp [htr, fallbackOrder] at hm
            rcases hm with rfl | rfl | rfl
            · exact ⟨e1, by simp [methodResult, h1]⟩
            · exact ⟨e2, by simp [methodResult, h2]⟩
            · exact ⟨e3, by simp [methodResult, h3]⟩
          · intro img hok
            simp [htr] at hok
            subst hok
            exact ⟨Method.sips, by simp [htr, fallbackOrder],
              by simp [methodResult, h4]⟩
          · constructor
            · intro hc
              exfalso
              simp [convert_file, hsid, hlk, decodeChain, htr, lookupA] at hc
            · intro hall
              rcases hall Method.sips (by simp [fallbackOrder]) with ⟨e, he⟩
              simp [methodResult, h4] at he
        case error =>
          have htr : decodeChainTrace env sd.file_path
              = (.error e1, fallbackOrder) := by
            simp [decodeChainTrace, h1, h2, h3, h4]
          refine ⟨?_, ?_, ?_, ?_⟩
          · simp only [htr]
            exact List.prefix_rfl
          · intro m hm
            simp [htr, fallbackOrder] at hm
            rcases hm with rfl | rfl | rfl
            · exact ⟨e1, by simp [methodResult, h1]⟩
            · exact ⟨e2, by simp [methodResult, h2]⟩
            · exact ⟨e3, by simp [methodResult, h3]⟩
          · intro img hok
            simp [htr] at hok
          · constructor
            · intro _ m hm
              simp [fallbackOrder] at hm
              rcases hm with rfl | rfl | rfl | rfl
              · exact ⟨e1, by simp [methodResult, h1]⟩
              · exact ⟨e2, by simp [methodResult, h2]⟩
              · exact ⟨e3, by simp [methodResult, h3]⟩
              · exact ⟨e4, by simp [methodResult, h4]⟩
            · intro _
              simp [convert_file, hsid, hlk, decodeChain, htr, lookupA]

/-- C2 witness: converting session s1 in an environment where every decode
method fails. -/
theorem C2_fallback_chain_witness :
    (reqConv.session_id = some "s1"
      ∧ lookupA stOne.conversion_sessions "s1" = some sdPending)
    ∧ ((decodeChainTrace envFail sdPending.file_path).2 <+: fallbackOrder
      ∧ (∀ m ∈ (decodeChainTrace envFail sdPending.file_path).2.dropLast,
          ∃ e, methodResult envFail sdPending.file_path m = .error e)
      ∧ (∀ img, (decodeChainTrace envFail sdPending.file_path).1 = .ok img →
          ∃ m, (decodeChainTrace envFail sdPending.file_path).2.getLast?
              = some m
            ∧ methodResult envFail sdPending.file_path m = .ok img)
      ∧ ((400 ≤ (convert_file envFail stOne reqConv).2.code
          ∧ (lookupA (convert_file envFail stOne reqConv).2.body
              "error").isSome) ↔
          ∀ m ∈ fallbackOrder,
            ∃ e, methodResult envFail sdPending.file_path m = .error e)) :=
  ⟨⟨rfl, rfl⟩, C2_fallback_chain envFail stOne reqConv "s1" sdPending rfl rfl⟩

/-- Two prefix patterns with different head characters cannot both match. -/
theorem startsWithL_head_ne {a c : Char} {p q l : List Char} (hne : c ≠ a)
    (h : startsWithL (a :: p) l = true) : startsWithL (c :: q) l = false := by
  cases l with
  | nil => rfl
  | cons b bs =>
    simp only [startsWithL, Bool.and_eq_true, beq_iff_eq] at h
    obtain ⟨rfl, -⟩ := h
    simp [startsWithL, beq_iff_eq, hne]

/-- A filename ending in `.jpg` or `.png` does not end in `.heic` or
`.heif`. -/
theorem raster_not_heic (s : String)
    (h : pyEndsWith s ".jpg" = true ∨ pyEndsWith s ".png" = true) :
    pyEndsWith s ".heic" = false ∧ pyEndsWith s ".heif" = false := by
  have ej : (".jpg" : String).data.reverse = ['g', 'p', 'j', '.'] := by decide
  have ep : (".png" : String).data.reverse = ['g', 'n', 'p', '.'] := by decide
  have ec : (".heic" : String).data.reverse = ['c', 'i', 'e', 'h', '.'] := by
    decide
  have ef : (".heif" : String).data.reverse = ['f', 'i', 'e', 'h', '.'] := by
    decide
  unfold pyEndsWith at h ⊢
  rw [ec, ef]
  rcases h with h | h
  · rw [ej] at h
    exact ⟨startsWithL_head_ne (by decide) h, startsWithL_head_ne (by decide) h⟩
  · rw [ep] at h
    exact ⟨startsWithL_head_ne (by decide) h, startsWithL_head_ne (by decide) h⟩

/-- C4 counterexample: uploading `photo.jpg` — a common raster format — is
rejected with HTTP 400 and no session id, and the state is unchanged,
refuting that the service accepts common raster formats. -/
theorem C4_raster_rejected_cex :
    (upload_file id "s1" 0 ⟨[], []⟩ ⟨some ⟨"photo.jpg", 100⟩⟩).2.code = 400
    ∧ lookupA (upload_file id "s1" 0 ⟨[], []⟩
        ⟨some ⟨"photo.jpg", 100⟩⟩).2.body "session_id" = none
    ∧ (upload_file id "s1" 0 ⟨[], []⟩ ⟨some ⟨"photo.jpg", 100⟩⟩).1
        = (⟨[], []⟩ : ServerState) := by
  decide

/-- C4 (amended): the service accepts an uploaded image only with a
HEIC/HEIF extension; an upload of a file in a common raster format (for
example a JPEG or PNG) is rejected with HTTP 400 and returns no session id
rather than being accepted. -/
theorem C4_only_heic_accepted (san : String → String) (sid : String)
    (now : Nat) (st : ServerState) (req : UploadReq) (f : UploadedFile)
    (hf : req.file = some f)
    (hraster : pyEndsWith (pyLower f.filename) ".jpg" = true
      ∨ pyEndsWith (pyLower f.filename) ".png" = true) :
    (upload_file san sid now st req).1 = st
    ∧ (upload_file san sid now st req).2.code = 400
    ∧ lookupA (upload_file san sid now st req).2.body "session_id" = none := by
  obtain ⟨hc, hfi⟩ := raster_not_heic _ hraster
  by_cases hemp : f.filename = ""
  · rw [hemp] at hraster
    exact absurd hraster (by decide)
  · simp [upload_file, hf, hemp, hc, hfi, err400, lookupA]

/-- C4 witness: a PNG upload against the one-session state is rejected. -/
theorem C4_only_heic_accepted_witness :
    (pyEndsWith (pyLower "pic.png") ".jpg" = true
      ∨ pyEndsWith (pyLower "pic.png") ".png" = true)
    ∧ ((upload_file id "s2" 0 stOne ⟨some ⟨"pic.png", 10⟩⟩).1 = stOne
      ∧ (upload_file id "s2" 0 stOne ⟨some ⟨"pic.png", 10⟩⟩).2.code = 400
      ∧ lookupA (upload_file id "s2" 0 stOne
          ⟨some ⟨"pic.png", 10⟩⟩).2.body "session_id" = none) :=
  ⟨Or.inr (by decide),
   C4_only_heic_accepted id "s2" 0 stOne ⟨some ⟨"pic.png", 10⟩⟩
     ⟨"pic.png", 10⟩ rfl (Or.inr (by decide))⟩
